import Mathlib

/-!
Verification of the admin configuration module `pinax/stripe/admin.py`.

The module configures read-only Django admin screens for Stripe-backed
records.  We embed its pure logic shallowly:

* a Django queryset is the list of records it would return (object-level
  semantics; row multiplicity introduced by SQL joins is not modelled);
* `queryset.filter(cond)` / `queryset.exclude(cond)` over a condition on a
  multi-valued relation keep exactly the records for which some related row
  matches / no related row matches, per Django's documented semantics;
* a Python `dict` of admin actions is an association list with distinct
  keys; `del d[k]` is a function returning `none` when the key is missing
  (modelling the `KeyError` that Python raises there);
* `list(set(xs))` is `xs.dedup` (only membership of the result matters);
* the `User` model is abstracted by its `USERNAME_FIELD` name and the list
  of its field names, since the module only reads those.
-/

set_option autoImplicit false

namespace PinaxStripe

/-- A Django queryset, embedded as the list of records it returns. -/
abbrev QuerySet (α : Type) := List α

/-- Embeds `queryset.filter(cond)`: keep the records matching `cond`. -/
def qfilter {α : Type} (cond : α → Bool) (qs : QuerySet α) : QuerySet α :=
  qs.filter cond

/-- Embeds `queryset.exclude(cond)`: keep the records not matching `cond`. -/
def qexclude {α : Type} (cond : α → Bool) (qs : QuerySet α) : QuerySet α :=
  qs.filter (fun x => ! cond x)

/-- Embeds `queryset.all()`: a copy of the queryset with the same records. -/
def qall {α : Type} (qs : QuerySet α) : QuerySet α := qs

/-- A card row; the module only reads its `fingerprint`. -/
structure Card where
  fingerprint : String
deriving DecidableEq, Repr

/-- The user behind a customer: the value of its `USERNAME_FIELD` attribute
and its email address (the latter is present so we can state that a piece
of code never consults it). -/
structure DjUser where
  username : String
  email : String
deriving DecidableEq, Repr

/-- A customer row with its related cards (the reverse FK `card_set`). -/
structure Customer where
  pk : Nat
  user : DjUser
  cards : List Card
deriving DecidableEq, Repr

/-- An invoice row; `email` is the invoice object's own `email` attribute
(`none` when the object has no such attribute). -/
structure Invoice where
  customer : Customer
  email : Option String
deriving DecidableEq, Repr

/-- A subscription row: the pk of its customer and its status string. -/
structure Subscription where
  customer : Nat
  status : String
deriving DecidableEq, Repr

/-- A model field; the module only reads its `name`. -/
structure Field where
  name : String
deriving DecidableEq, Repr

/-- The slice of `self.opts` (the model `_meta`) read by the module. -/
structure ModelOpts where
  local_fields : List Field
  local_many_to_many : List Field
deriving Repr

/-- The slice of the `User` model read by the module: `USERNAME_FIELD` and
the names of `User._meta.fields`. -/
structure UserModelConfig where
  username_field : String
  field_names : List String
deriving Repr

/-- Embeds Python `del d["k"]` on a dict: `none` models the `KeyError`
raised when the key is absent, otherwise the mapping without the key. -/
def pyDelKey {α : Type} (m : List (String × α)) (k : String) :
    Option (List (String × α)) :=
  if m.any (fun p => p.1 = k) then some (m.filter (fun p => p.1 ≠ k)) else none

/-- Embeds `ReadOnlyAdmin.get_actions`: take the inherited actions mapping
and delete the key `"delete_selected"` from it. -/
def ReadOnlyAdmin.get_actions {α : Type} (inherited : List (String × α)) :
    Option (List (String × α)) :=
  pyDelKey inherited "delete_selected"

/-- Embeds `ReadOnlyAdmin.has_add_permission`. -/
def ReadOnlyAdmin.has_add_permission {ρ σ : Type} (_request : ρ)
    (_obj : Option σ) : Bool :=
  false

/-- Embeds `ReadOnlyAdmin.has_delete_permission`. -/
def ReadOnlyAdmin.has_delete_permission {ρ σ : Type} (_request : ρ)
    (_obj : Option σ) : Bool :=
  false

/-- Embeds `ReadOnlyAdmin.get_readonly_fields`:
`list(set([f.name for f in local_fields] + [f.name for f in local_many_to_many]))`. -/
def ReadOnlyAdmin.get_readonly_fields (opts : ModelOpts) : List String :=
  ((opts.local_fields.map Field.name) ++
    (opts.local_many_to_many.map Field.name)).dedup

/-- Embeds `ReadOnlyInline.has_add_permission`. -/
def ReadOnlyInline.has_add_permission {ρ σ : Type} (_request : ρ)
    (_obj : Option σ) : Bool :=
  false

/-- Embeds `ReadOnlyInline.has_delete_permission`. -/
def ReadOnlyInline.has_delete_permission {ρ σ : Type} (_request : ρ)
    (_obj : Option σ) : Bool :=
  false

/-- Embeds `ReadOnlyInline.get_readonly_fields` (same body as the
`ReadOnlyAdmin` method). -/
def ReadOnlyInline.get_readonly_fields (opts : ModelOpts) : List String :=
  ((opts.local_fields.map Field.name) ++
    (opts.local_many_to_many.map Field.name)).dedup

/-- Embeds `user_search_fields()`: `"user__" + USERNAME_FIELD`, plus
`"user__email"` when the user model has an `email` field. -/
def user_search_fields (cfg : UserModelConfig) : List String :=
  let fields := ["user__" ++ cfg.username_field]
  if cfg.field_names.contains "email" then fields ++ ["user__email"] else fields

/-- Embeds `customer_search_fields()`. -/
def customer_search_fields (cfg : UserModelConfig) : List String :=
  (user_search_fields cfg).map (fun field => "customer__" ++ field)

/-- Embeds `CustomerAdmin.search_fields`.  The assignment in the source ends
in a comma (`] + user_search_fields(),`), so Python builds a one-element
tuple whose single element is the intended list; the tuple is embedded as a
list of lists. -/
def CustomerAdmin.search_fields (cfg : UserModelConfig) : List (List String) :=
  [["stripe_id"] ++ user_search_fields cfg]

/-- The condition `Q(card__fingerprint="") | Q(card=None)` of
`CustomerHasCardListFilter.queryset`, at object level: the customer has
some card with the empty fingerprint, or has no card at all. -/
def no_card (c : Customer) : Bool :=
  c.cards.any (fun card => card.fingerprint = "") || c.cards.isEmpty

/-- Embeds `CustomerHasCardListFilter.queryset`; `value` is `self.value()`
(`none` when no filter value is selected). -/
def CustomerHasCardListFilter.queryset (value : Option String)
    (qs : QuerySet Customer) : QuerySet Customer :=
  if value = some "yes" then qexclude no_card qs
  else if value = some "no" then qfilter no_card qs
  else qall qs

/-- The condition `Q(customer__card__fingerprint="") | Q(customer__card=None)`
of `InvoiceCustomerHasCardListFilter.queryset`, at object level. -/
def invoice_no_card (i : Invoice) : Bool :=
  no_card i.customer

/-- Embeds `InvoiceCustomerHasCardListFilter.queryset`. -/
def InvoiceCustomerHasCardListFilter.queryset (value : Option String)
    (qs : QuerySet Invoice) : QuerySet Invoice :=
  if value = some "yes" then qexclude invoice_no_card qs
  else if value = some "no" then qfilter invoice_no_card qs
  else qall qs

/-- Python truthiness of `self.value()`: `None` and `""` are falsy. -/
def truthy : Option String → Bool
  | none => false
  | some s => s ≠ ""

/-- The annotation `Count('subscription')`: how many subscriptions of the
database relate to the customer with primary key `pk`. -/
def subscription_count (db : List Subscription) (pk : Nat) : Nat :=
  (db.filter (fun s => s.customer = pk)).length

/-- Embeds `CustomerSubscriptionStatusListFilter.queryset`; `db` is the
content of `Subscription.objects`. -/
def CustomerSubscriptionStatusListFilter.queryset (db : List Subscription)
    (value : Option String) (qs : QuerySet Customer) : QuerySet Customer :=
  if value = some "none" then
    qfilter (fun c => subscription_count db c.pk = 0) qs
  else if truthy value then
    let customers :=
      ((db.filter (fun s => some s.status = value)).map
        Subscription.customer).dedup
    qfilter (fun c => customers.contains c.pk) qs
  else qall qs

/-- Embeds Python `s.replace("_", " ")` (a single-character pattern, so a
character map). -/
def replace_underscores (s : String) : String :=
  String.mk (s.data.map (fun c => if c = '_' then ' ' else c))

/-- Character-level worker for Python `str.title()`: a cased character is
uppercased when the previous character is not cased, lowercased otherwise. -/
def title_chars : List Char → Bool → List Char
  | [], _ => []
  | c :: rest, prevCased =>
    (if c.isAlpha then (if prevCased then c.toLower else c.toUpper) else c) ::
      title_chars rest c.isAlpha

/-- Embeds Python `s.title()`. -/
def py_title (s : String) : String :=
  String.mk (title_chars s.data false)

/-- The label `x.replace("_", " ").title()` built by the lookups. -/
def status_label (x : String) : String :=
  py_title (replace_underscores x)

/-- Embeds `Subscription.objects.all().values_list("status", flat=True).distinct()`. -/
def distinct_statuses (db : List Subscription) : List String :=
  (db.map Subscription.status).dedup

/-- Embeds `CustomerSubscriptionStatusListFilter.lookups`. -/
def CustomerSubscriptionStatusListFilter.lookups (db : List Subscription) :
    List (String × String) :=
  ((distinct_statuses db).map (fun x => (x, status_label x))) ++
    [("none", "No Subscription")]

/-- Embeds the display callable `customer_user(obj)`:
`"{0} <{1}>".format(getattr(obj.customer.user, USERNAME_FIELD), getattr(obj, "email", ""))`. -/
def customer_user (obj : Invoice) : String :=
  obj.customer.user.username ++ " <" ++ (obj.email.getD "") ++ ">"

/-- C1: for every request and every object (including `None`), the
`has_add_permission` and `has_delete_permission` overrides of
`ReadOnlyAdmin` and of `ReadOnlyInline` all return `False`. -/
theorem readonly_permissions_all_false {ρ σ : Type} (request : ρ)
    (obj : Option σ) :
    ReadOnlyAdmin.has_add_permission request obj = false ∧
    ReadOnlyAdmin.has_delete_permission request obj = false ∧
    ReadOnlyInline.has_add_permission request obj = false ∧
    ReadOnlyInline.has_delete_permission request obj = false :=
  ⟨rfl, rfl, rfl, rfl⟩

/-- C2: the list returned by `get_readonly_fields` (of `ReadOnlyAdmin` and
of `ReadOnlyInline`) contains exactly the names of the model's local fields
together with the names of its local many-to-many fields. -/
theorem get_readonly_fields_exactly_local_field_names (opts : ModelOpts)
    (s : String) :
    (s ∈ ReadOnlyAdmin.get_readonly_fields opts ↔
      (∃ f ∈ opts.local_fields, f.name = s) ∨
        (∃ f ∈ opts.local_many_to_many, f.name = s)) ∧
    (s ∈ ReadOnlyInline.get_readonly_fields opts ↔
      (∃ f ∈ opts.local_fields, f.name = s) ∨
        (∃ f ∈ opts.local_many_to_many, f.name = s)) := by
  constructor <;>
    simp [ReadOnlyAdmin.get_readonly_fields, ReadOnlyInline.get_readonly_fields,
      List.mem_dedup, List.mem_append, List.mem_map]

/-- Membership in an embedded `queryset.filter(cond)`. -/
theorem mem_qfilter {α : Type} (cond : α → Bool) (qs : QuerySet α) (x : α) :
    x ∈ qfilter cond qs ↔ x ∈ qs ∧ cond x = true := by
  simp [qfilter, List.mem_filter]

/-- Membership in an embedded `queryset.exclude(cond)`. -/
theorem mem_qexclude {α : Type} (cond : α → Bool) (qs : QuerySet α) (x : α) :
    x ∈ qexclude cond qs ↔ x ∈ qs ∧ ¬ cond x = true := by
  simp [qexclude, List.mem_filter]

/-- The `no_card` condition holds exactly for customers with no card or with
a card carrying the empty fingerprint. -/
theorem no_card_iff (c : Customer) :
    no_card c = true ↔
      (c.cards = [] ∨ ∃ card ∈ c.cards, card.fingerprint = "") := by
  simp [no_card, List.any_eq_true, List.isEmpty_iff, or_comm]

/-- C3: whenever `ReadOnlyAdmin.get_actions` returns a mapping, that mapping
does not contain the key `"delete_selected"`. -/
theorem get_actions_omits_delete_selected {α : Type}
    (inherited result : List (String × α))
    (h : ReadOnlyAdmin.get_actions inherited = some result) :
    "delete_selected" ∉ result.map Prod.fst := by
  unfold ReadOnlyAdmin.get_actions pyDelKey at h
  split at h
  · cases h
    intro hmem
    rcases List.mem_map.mp hmem with ⟨p, hp, hfst⟩
    have hne : ¬ p.1 = "delete_selected" :=
      of_decide_eq_true (List.mem_filter.mp hp).2
    exact hne hfst
  · cases h

/-- Witness for C3 at a concrete inherited actions mapping. -/
theorem get_actions_omits_delete_selected_witness :
    "delete_selected" ∉
      (([("other", "x")] : List (String × String)).map Prod.fst) :=
  get_actions_omits_delete_selected
    [("delete_selected", "d"), ("other", "x")] [("other", "x")] (by decide)

/-- C4: with value `"no"` the card-presence filters keep exactly the records
whose customer has no card or has a card with an empty-string fingerprint,
and with value `"yes"` exactly the records not matching that condition. -/
theorem card_presence_filters_exact (qs : QuerySet Customer)
    (iqs : QuerySet Invoice) (c : Customer) (i : Invoice) :
    (c ∈ CustomerHasCardListFilter.queryset (some "no") qs ↔
      c ∈ qs ∧ (c.cards = [] ∨ ∃ card ∈ c.cards, card.fingerprint = "")) ∧
    (c ∈ CustomerHasCardListFilter.queryset (some "yes") qs ↔
      c ∈ qs ∧ ¬ (c.cards = [] ∨ ∃ card ∈ c.cards, card.fingerprint = "")) ∧
    (i ∈ InvoiceCustomerHasCardListFilter.queryset (some "no") iqs ↔
      i ∈ iqs ∧ (i.customer.cards = [] ∨
        ∃ card ∈ i.customer.cards, card.fingerprint = "")) ∧
    (i ∈ InvoiceCustomerHasCardListFilter.queryset (some "yes") iqs ↔
      i ∈ iqs ∧ ¬ (i.customer.cards = [] ∨
        ∃ card ∈ i.customer.cards, card.fingerprint = "")) := by
  refine ⟨?_, ?_, ?_, ?_⟩ <;>
    simp [CustomerHasCardListFilter.queryset,
      InvoiceCustomerHasCardListFilter.queryset, invoice_no_card,
      mem_qfilter, mem_qexclude, no_card_iff]

/-- C5: with value `"none"` the subscription-status filter keeps exactly the
customers with zero subscriptions; with any other non-empty value `v` it
keeps exactly the customers having at least one subscription of status `v`. -/
theorem subscription_status_filter_exact (db : List Subscription)
    (qs : QuerySet Customer) (c : Customer) (v : String)
    (hne : v ≠ "") (hnn : v ≠ "none") :
    (c ∈ CustomerSubscriptionStatusListFilter.queryset db (some "none") qs ↔
      c ∈ qs ∧ ¬ ∃ s ∈ db, s.customer = c.pk) ∧
    (c ∈ CustomerSubscriptionStatusListFilter.queryset db (some v) qs ↔
      c ∈ qs ∧ ∃ s ∈ db, s.customer = c.pk ∧ s.status = v) := by
  constructor
  · rw [CustomerSubscriptionStatusListFilter.queryset, if_pos rfl]
    simp only [mem_qfilter, subscription_count, decide_eq_true_eq,
      List.length_eq_zero, List.filter_eq_nil_iff]
    simp
  · have hvn : (some v : Option String) ≠ some "none" := by
      simpa using hnn
    have htr : truthy (some v) = true := by
      simp [truthy, hne]
    rw [CustomerSubscriptionStatusListFilter.queryset, if_neg hvn, if_pos htr]
    simp only [mem_qfilter, List.contains, List.elem_eq_mem,
      List.mem_dedup, List.mem_map, List.mem_filter, decide_eq_true_eq,
      Option.some.injEq]
    tauto

/-- Witness for C5 at a concrete database, queryset and status value. -/
theorem subscription_status_filter_exact_witness :
    (⟨1, ⟨"u", "e"⟩, []⟩ ∈ CustomerSubscriptionStatusListFilter.queryset
        [⟨1, "active"⟩] (some "none") [⟨1, ⟨"u", "e"⟩, []⟩] ↔
      (⟨1, ⟨"u", "e"⟩, []⟩ : Customer) ∈
          [(⟨1, ⟨"u", "e"⟩, []⟩ : Customer)] ∧
        ¬ ∃ s ∈ [(⟨1, "active"⟩ : Subscription)], s.customer = 1) ∧
    (⟨1, ⟨"u", "e"⟩, []⟩ ∈ CustomerSubscriptionStatusListFilter.queryset
        [⟨1, "active"⟩] (some "active") [⟨1, ⟨"u", "e"⟩, []⟩] ↔
      (⟨1, ⟨"u", "e"⟩, []⟩ : Customer) ∈
          [(⟨1, ⟨"u", "e"⟩, []⟩ : Customer)] ∧
        ∃ s ∈ [(⟨1, "active"⟩ : Subscription)],
          s.customer = 1 ∧ s.status = "active") :=
  subscription_status_filter_exact [⟨1, "active"⟩] [⟨1, ⟨"u", "e"⟩, []⟩]
    ⟨1, ⟨"u", "e"⟩, []⟩ "active" (by decide) (by decide)

/-- C6 (code bug): at a standard user model (`USERNAME_FIELD = "username"`,
an `email` field present), `CustomerAdmin.search_fields` is a one-element
tuple whose single element is the intended list of field names, not the
list itself — the source assignment ends in a stray comma. -/
theorem customer_admin_search_fields_is_wrapped_in_tuple :
    CustomerAdmin.search_fields ⟨"username", ["id", "username", "email"]⟩ =
      [["stripe_id", "user__username", "user__email"]] ∧
    (CustomerAdmin.search_fields
      ⟨"username", ["id", "username", "email"]⟩).length = 1 := by
  constructor <;> rfl

/-- C7 counterexample: on an inherited actions mapping without the key
`"delete_selected"` (here the empty mapping), `ReadOnlyAdmin.get_actions`
does not return normally — `del actions['delete_selected']` raises
`KeyError`, modelled by `none`. -/
theorem get_actions_raises_on_missing_key :
    ReadOnlyAdmin.get_actions ([] : List (String × String)) = none := rfl

/-- C7 amended: `ReadOnlyAdmin.get_actions` returns normally on every
inherited actions mapping that contains the key `"delete_selected"`; when
the key is absent the deletion raises `KeyError`. -/
theorem get_actions_returns_when_key_present {α : Type}
    (inherited : List (String × α))
    (h : inherited.any (fun p => p.1 = "delete_selected") = true) :
    (ReadOnlyAdmin.get_actions inherited).isSome = true := by
  unfold ReadOnlyAdmin.get_actions pyDelKey
  rw [if_pos h]
  rfl

/-- Witness for the amended C7 at a concrete mapping containing the key. -/
theorem get_actions_returns_when_key_present_witness :
    (ReadOnlyAdmin.get_actions
      ([("delete_selected", "d")] : List (String × String))).isSome = true :=
  get_actions_returns_when_key_present [("delete_selected", "d")] (by decide)

/-- C8: with no filter value selected (`value()` is `None`, or anything
other than `"yes"`/`"no"` for the card filters), each of the three custom
list filters returns the input queryset unchanged. -/
theorem filters_identity_when_unselected (db : List Subscription)
    (qs : QuerySet Customer) (iqs : QuerySet Invoice) (v : Option String)
    (hy : v ≠ some "yes") (hn : v ≠ some "no") :
    CustomerHasCardListFilter.queryset v qs = qs ∧
    InvoiceCustomerHasCardListFilter.queryset v iqs = iqs ∧
    CustomerSubscriptionStatusListFilter.queryset db none qs = qs := by
  refine ⟨?_, ?_, ?_⟩
  · rw [CustomerHasCardListFilter.queryset, if_neg hy, if_neg hn]; rfl
  · rw [InvoiceCustomerHasCardListFilter.queryset, if_neg hy, if_neg hn]; rfl
  · rw [CustomerSubscriptionStatusListFilter.queryset,
      if_neg (by simp : (none : Option String) ≠ some "none")]
    rfl

/-- Witness for C8 at a concrete unselected value and concrete querysets. -/
theorem filters_identity_when_unselected_witness :
    CustomerHasCardListFilter.queryset none [⟨1, ⟨"u", "e"⟩, []⟩] =
        [⟨1, ⟨"u", "e"⟩, []⟩] ∧
    InvoiceCustomerHasCardListFilter.queryset none
        [⟨⟨1, ⟨"u", "e"⟩, []⟩, none⟩] = [⟨⟨1, ⟨"u", "e"⟩, []⟩, none⟩] ∧
    CustomerSubscriptionStatusListFilter.queryset [⟨1, "active"⟩] none
        [⟨1, ⟨"u", "e"⟩, []⟩] = [⟨1, ⟨"u", "e"⟩, []⟩] :=
  filters_identity_when_unselected [⟨1, "active"⟩] [⟨1, ⟨"u", "e"⟩, []⟩]
    [⟨⟨1, ⟨"u", "e"⟩, []⟩, none⟩] none (by decide) (by decide)

/-- C9: `customer_user` renders `"<username> <<email>>"` from the customer's
user's `USERNAME_FIELD` value and the invoice object's own `email`
attribute; a missing attribute behaves as the empty string, and the user's
email address is never consulted. -/
theorem customer_user_format (obj : Invoice) (e : String) :
    customer_user obj =
        obj.customer.user.username ++ " <" ++ (obj.email.getD "") ++ ">" ∧
    customer_user ⟨⟨obj.customer.pk, ⟨obj.customer.user.username, e⟩,
        obj.customer.cards⟩, obj.email⟩ = customer_user obj ∧
    customer_user ⟨obj.customer, none⟩ = customer_user ⟨obj.customer, some ""⟩ :=
  ⟨rfl, rfl, rfl⟩

/-- C10: the subscription-status lookups list one entry per distinct status
present in the database — pairwise-distinct keys, keys exactly the statuses
occurring in `db`, each labeled by underscore-to-space replacement followed
by title-casing — and end with exactly one entry `["none", "No Subscription"]`. -/
theorem sub_status_lookups_shape (db : List Subscription) :
    (CustomerSubscriptionStatusListFilter.lookups db).getLast? =
        some ("none", "No Subscription") ∧
    (CustomerSubscriptionStatusListFilter.lookups db).count
        ("none", "No Subscription") = 1 ∧
    ((CustomerSubscriptionStatusListFilter.lookups db).dropLast.map
        Prod.fst).Nodup ∧
    (∀ x : String,
      x ∈ (CustomerSubscriptionStatusListFilter.lookups db).dropLast.map
          Prod.fst ↔
        ∃ s ∈ db, s.status = x) ∧
    (∀ p ∈ (CustomerSubscriptionStatusListFilter.lookups db).dropLast,
      p.2 = status_label p.1) := by
  have hdrop : (CustomerSubscriptionStatusListFilter.lookups db).dropLast =
      (distinct_statuses db).map (fun x => (x, status_label x)) := by
    rw [CustomerSubscriptionStatusListFilter.lookups, List.dropLast_concat]
  have hfst : ((distinct_statuses db).map
      (fun x => (x, status_label x))).map Prod.fst = distinct_statuses db := by
    rw [List.map_map]
    exact List.map_id (distinct_statuses db)
  refine ⟨?_, ?_, ?_, ?_, ?_⟩
  · rw [CustomerSubscriptionStatusListFilter.lookups, List.getLast?_concat]
  · have hnot : ("none", "No Subscription") ∉
        (distinct_statuses db).map (fun x => (x, status_label x)) := by
      intro hmem
      rcases List.mem_map.mp hmem with ⟨x, _, hpair⟩
      have hx : x = "none" := congrArg Prod.fst hpair
      have hlabel : status_label x = "No Subscription" :=
        congrArg Prod.snd hpair
      rw [hx] at hlabel
      exact absurd hlabel (by decide)
    rw [CustomerSubscriptionStatusListFilter.lookups]
    simp [List.count_eq_zero_of_not_mem hnot]
  · rw [hdrop, hfst]
    exact List.nodup_dedup (db.map Subscription.status)
  · intro x
    rw [hdrop, hfst]
    simp [distinct_statuses, List.mem_dedup, List.mem_map]
  · intro p hp
    rw [hdrop] at hp
    rcases List.mem_map.mp hp with ⟨x, _, hpair⟩
    rw [← hpair]

end PinaxStripe
